import Mathlib

/-!
Shallow embedding of the initialization orchestrator of Tabulater/WildfireAI
(`src/services/modelInitializer.ts`), together with theorems checking the
specification's claims about it.

Modelling conventions:
* JS numbers used for progress values and timestamps are modelled as `ℚ`
  (all arithmetic involved is exact decimal arithmetic on small values).
* The mutable fields of the `ModelInitializer` class become the record
  `OrchState`; methods become functions `OrchState → OrchState` (or return
  a pair when the method also returns a value).
* `OrchState.emittedProgress` is a ghost trace recording, in order, the
  `progress` field of every snapshot handed to the subscriber callbacks by
  `updateStatus` (each `updateStatus` call synchronously delivers one such
  snapshot to every subscriber).
* Sources of runtime nondeterminism (Web Worker availability, injected
  per-model load failures, worker protocol messages, the wall clock) are
  gathered in an `Env` oracle.
* `async`/`await` control flow is serialized: the critical-model phase's
  state effects are threaded first, then the background data phase, then
  the background training phase.  The scheduler's freedom to interleave
  the two concurrent phases is modelled separately by `isInterleaving`.
* A JS `throw`/promise rejection is an `Except.error` / `Option.some`
  carrying the message string; `try`/`catch` becomes a `match`.
-/

namespace WildfireAI

/-- `modelStats` sub-record of a status snapshot. -/
structure ModelStats where
  totalParameters : Nat
  averageAccuracy : ℚ
  modelNames : List String
deriving DecidableEq

/-- The `ModelInitializationStatus` snapshot interface. -/
structure ModelInitializationStatus where
  isInitialized : Bool
  totalModels : Nat
  loadedModels : Nat
  initializationTime : ℚ
  errors : List String
  modelStats : ModelStats
  currentStep : String
  progress : ℚ
deriving DecidableEq

/-- The mutable instance fields of the `ModelInitializer` class, plus the
ghost trace `emittedProgress` (progress values of snapshots delivered to
subscribers, in delivery order). -/
structure OrchState where
  isInitialized : Bool
  initializationStartTime : ℚ
  errors : List String
  currentStep : String
  progress : ℚ
  loadedModels : List String
  emittedProgress : List ℚ
deriving DecidableEq

/-- `criticalModels` field initializer: `['wildfire-risk-v3', 'fire-spread-v2']`.
It is never reassigned, so it is a constant. -/
def criticalModels : List String := ["wildfire-risk-v3", "fire-spread-v2"]

/-- The state of a freshly constructed `ModelInitializer` instance. -/
def initialState : OrchState :=
  { isInitialized := false
    initializationStartTime := 0
    errors := []
    currentStep := "Initializing..."
    progress := 0
    loadedModels := []
    emittedProgress := [] }

/-- Environment oracle: everything the orchestrator's run depends on that
is outside its own state. -/
structure Env where
  /-- `typeof Worker !== 'undefined'` and both `new Worker(...)` calls
  succeed (the source constructs both in one `try`, so availability is
  both-or-neither at provisioning time). -/
  workersSupported : Bool
  /-- Injected failure for the simulated load of a given model name:
  `some e` makes `loadModel(name)` throw `e` (the spec's deterministic
  fault injection); `none` lets it succeed. -/
  modelLoadError : String → Option String
  /-- `progress` messages (payload progress, payload message) received on
  the data channel before its terminal message. -/
  dataEvents : List (ℚ × String)
  /-- Terminal data-channel message: `none` = `dataLoaded`,
  `some raw` = `error` with raw error string `raw`. -/
  dataOutcome : Option String
  /-- `trainingProgress` messages before the terminal training message. -/
  trainingEvents : List (ℚ × String)
  /-- Terminal training-channel message: `none` = `trainingComplete`,
  `some raw` = `error` with raw string `raw`. -/
  trainingOutcome : Option String
  /-- `Date.now()` at the start of the run. -/
  startNow : ℚ

/-- `getStatus()`: point-in-time copy of the state; `now` is `Date.now()`
at the moment of the call. -/
def getStatus (st : OrchState) (now : ℚ) : ModelInitializationStatus :=
  { isInitialized := st.isInitialized
    totalModels := criticalModels.length
    loadedModels := st.loadedModels.length
    initializationTime :=
      if 0 < st.initializationStartTime then
        (now - st.initializationStartTime) / 1000
      else 0
    errors := st.errors
    modelStats :=
      { totalParameters := 0
        averageAccuracy := 0
        modelNames := st.loadedModels }
    currentStep := st.currentStep
    progress := st.progress }

/-- The `Partial<ModelInitializationStatus>` arguments actually passed to
`updateStatus` in the source (only `progress` and `currentStep` occur). -/
structure StatusUpdates where
  progress : Option ℚ := none
  currentStep : Option String := none

/-- The merged snapshot `{ ...status, ...updates }` that `updateStatus`
hands to every subscriber. -/
def mergedSnapshot (st : OrchState) (now : ℚ) (u : StatusUpdates) :
    ModelInitializationStatus :=
  let base := getStatus st now
  { base with
    progress := u.progress.getD base.progress
    currentStep := u.currentStep.getD base.currentStep }

/-- `updateStatus(updates)`: update the internal `progress` and
`currentStep` fields and deliver the merged snapshot to every subscriber
(recorded in the ghost trace).  The `if (updates.currentStep)` truthiness
test makes an empty string a no-op, mirrored here. -/
def updateStatus (st : OrchState) (u : StatusUpdates) : OrchState :=
  let newProgress := u.progress.getD st.progress
  let newStep :=
    match u.currentStep with
    | some s => if s = "" then st.currentStep else s
    | none => st.currentStep
  { st with
    progress := newProgress
    currentStep := newStep
    emittedProgress := st.emittedProgress ++ [newProgress] }

/-- `initializeWorkers()`: resolves with both handles when background
execution is supported and construction succeeds, with both `null`
otherwise; it never rejects.  `true` stands for a non-null handle. -/
def initializeWorkers (env : Env) : Bool × Bool :=
  if env.workersSupported then (true, true) else (false, false)

/-- `loadModel(modelName)`: no-op when already loaded, otherwise the
simulated load either succeeds and inserts the name into the loaded set,
or throws the injected failure. -/
def loadModel (env : Env) (st : OrchState) (modelName : String) :
    Except String OrchState :=
  if modelName ∈ st.loadedModels then
    .ok st
  else
    match env.modelLoadError modelName with
    | some e => .error e
    | none => .ok { st with loadedModels := st.loadedModels ++ [modelName] }

/-- Body of one iteration of the `loadModels` loop up to the end of its
`try` block: load the model, then report progress
`modelProgress + progressIncrement * 0.8`. -/
def loadModelsTry (env : Env) (st : OrchState) (modelName : String)
    (modelProgress progressIncrement : ℚ) : Except String OrchState := do
  let st1 ← loadModel env st modelName
  pure (updateStatus st1
    { progress := some (modelProgress + progressIncrement * (4/5))
      currentStep := some ("Loaded model: " ++ modelName) })

/-- One iteration of the `loadModels` loop: the `try` body, with the
`catch` appending `Failed to load model ...` to the error log and letting
the loop continue. -/
def loadModelsStep (env : Env) (st : OrchState) (modelName : String)
    (modelProgress progressIncrement : ℚ) : OrchState :=
  match loadModelsTry env st modelName modelProgress progressIncrement with
  | .ok s => s
  | .error e =>
    { st with errors :=
        st.errors ++ ["Failed to load model " ++ modelName ++ ": " ++ e] }

/-- The `for` loop of `loadModels`: `i` is the loop index and
`modelProgress = startProgress + i * progressIncrement`. -/
def loadModelsLoop (env : Env) (startProgress progressIncrement : ℚ) :
    List String → Nat → OrchState → OrchState
  | [], _, st => st
  | modelName :: rest, i, st =>
    loadModelsLoop env startProgress progressIncrement rest (i + 1)
      (loadModelsStep env st modelName
        (startProgress + (i : ℚ) * progressIncrement) progressIncrement)

/-- `loadModels(modelNames, startProgress, endProgress)`.  Every failure
of an individual load is caught inside the loop, so the method as a whole
never throws; accordingly its translation is a total function. -/
def loadModels (env : Env) (st : OrchState) (modelNames : List String)
    (startProgress endProgress : ℚ) : OrchState :=
  if modelNames.length = 0 then st
  else
    let progressIncrement :=
      (endProgress - startProgress) / (modelNames.length : ℚ)
    loadModelsLoop env startProgress progressIncrement modelNames 0 st

/-- The simulated (no-worker) branch of `loadDataInChunks`: ten chunks,
each reporting `20 + Math.round(i / totalChunks * 100) * 0.3`. -/
def loadDataInChunksSim (st : OrchState) : OrchState :=
  (List.range 10).foldl
    (fun s i =>
      let progress : ℚ := (round (((i : ℚ) / 10) * 100) : ℤ)
      updateStatus s
        { progress := some (20 + progress * (3/10))
          currentStep := some
            ("Loading data: Chunk " ++ toString (i + 1) ++ " of 10") })
    st

/-- `event.data.error || '<fallback>'`: substitute the fallback message
when the raw error string is falsy (empty). -/
def errFallback (raw fallback : String) : String :=
  if raw = "" then fallback else raw

/-- `loadDataInChunks(dataWorker)`: the pair is (state after all of this
phase's status updates, rejection message if the phase rejected).  Progress
events map into `20 + p * 0.3`; a terminal `error` message rejects after
the progress events already delivered. -/
def loadDataInChunks (env : Env) (hasWorker : Bool) (st : OrchState) :
    OrchState × Option String :=
  if hasWorker then
    let st1 := env.dataEvents.foldl
      (fun s ev =>
        updateStatus s
          { progress := some (20 + ev.1 * (3/10))
            currentStep := some ("Loading data: " ++ ev.2) })
      st
    (st1, env.dataOutcome.map (fun raw => errFallback raw "Error in data worker"))
  else
    (loadDataInChunksSim st, none)

/-- `trainModelsInBackground(trainingWorker)`: without a worker the phase
is a plain delay with no status updates; with one, progress events map into
`60 + p * 0.4` and a terminal `error` message rejects. -/
def trainModelsInBackground (env : Env) (hasWorker : Bool) (st : OrchState) :
    OrchState × Option String :=
  if hasWorker then
    let st1 := env.trainingEvents.foldl
      (fun s ev =>
        updateStatus s
          { progress := some (60 + ev.1 * (2/5))
            currentStep := some ("Training: " ++ ev.2) })
      st
    (st1, env.trainingOutcome.map
      (fun raw => errFallback raw "Error in training worker"))
  else
    (st, none)

/-- `continueBackgroundInitialization`: `Promise.all` of the data phase and
the training phase.  Both run to completion (their status updates happen
regardless of the other's failure); a rejection of either rejects the
combination, the data phase's error taken first in this serialization.
The method's own `catch` only logs and rethrows, so it adds nothing. -/
def continueBackgroundInitialization (env : Env) (hasData hasTraining : Bool)
    (st : OrchState) : OrchState × Option String :=
  let dataRes := loadDataInChunks env hasData st
  let trainRes := trainModelsInBackground env hasTraining dataRes.1
  (trainRes.1,
    match dataRes.2 with
    | some e => some e
    | none => trainRes.2)

/-- `finalizeInitialization()`: mark initialized, set progress to 100 and
broadcast the completion snapshot. -/
def finalizeInitialization (st : OrchState) : OrchState :=
  let st1 := { st with isInitialized := true, progress := (100 : ℚ) }
  updateStatus st1
    { progress := some 100, currentStep := some "Initialization complete" }

/-- The run-scoped reset performed by `initializeAllModels` after its
guard: restart the timer, clear errors, reset progress, clear the loaded
set. -/
def resetRunState (env : Env) (st : OrchState) : OrchState :=
  { st with
    initializationStartTime := env.startNow
    isInitialized := false
    errors := []
    progress := 0
    loadedModels := [] }

/-- Steps 3-7 of `initializeAllModels` (everything after the guard and the
reset): provision workers, run the critical phase (always on
`this.criticalModels` — the `priorityModels` argument is not consulted),
await the background phase, finalize; the top-level `catch` appends
`Initialization failed: ...` and still marks the system initialized.  A
thrown `Error` stringifies as `Error: <message>`. -/
def runInitialization (env : Env) (st0 : OrchState) (now : ℚ) :
    OrchState × ModelInitializationStatus :=
  let workers := initializeWorkers env
  let st1 := loadModels env st0 criticalModels 0 60
  let bg := continueBackgroundInitialization env workers.1 workers.2 st1
  match bg.2 with
  | none =>
    let st2 := finalizeInitialization bg.1
    (st2, getStatus st2 now)
  | some e =>
    let st2 :=
      { bg.1 with
        errors := bg.1.errors ++ ["Initialization failed: Error: " ++ e]
        isInitialized := true }
    (st2, getStatus st2 now)

/-- `initializeAllModels(priorityModels)`: guard on `isInitialized`, else
reset run state and run the pipeline.  `now` is `Date.now()` at the moment
the returned snapshot is produced. -/
def initializeAllModels (env : Env) (priorityModels : List String)
    (st : OrchState) (now : ℚ) : OrchState × ModelInitializationStatus :=
  if st.isInitialized then
    (st, getStatus st now)
  else
    runInitialization env (resetRunState env st) now

/-- A convenient benign environment: no workers, no injected failures. -/
def envOk : Env :=
  { workersSupported := false
    modelLoadError := fun _ => none
    dataEvents := []
    dataOutcome := none
    trainingEvents := []
    trainingOutcome := none
    startNow := 0 }

/-- A registered subscriber callback: returns normally or throws. -/
def Subscriber : Type := ModelInitializationStatus → Except String Unit

/-- `this.statusCallbacks.forEach(callback => callback(newStatus))`.
`Array.prototype.forEach` does not guard against exceptions: the first
throw aborts the iteration and propagates to the caller of `forEach`.
Returns (number of callbacks actually invoked, propagated exception). -/
def notifySubscribers : List Subscriber → ModelInitializationStatus →
    Nat × Option String
  | [], _ => (0, none)
  | cb :: rest, snap =>
    match cb snap with
    | .ok _ =>
      let r := notifySubscribers rest snap
      (r.1 + 1, r.2)
    | .error e => (1, some e)

/-- `updateStatus` together with its subscriber notification: the internal
field assignments happen before the `forEach`, so they are complete even
when a callback throws; the throw then propagates to `updateStatus`'s
caller.  Returns (new state, callbacks invoked, propagated exception). -/
def updateStatusNotify (cbs : List Subscriber) (st : OrchState) (now : ℚ)
    (u : StatusUpdates) : OrchState × Nat × Option String :=
  let snap := mergedSnapshot st now u
  let st1 := updateStatus st u
  (st1, notifySubscribers cbs snap)

/-- The hard-coded metadata list returned by `getModelMetadata()`. -/
def modelMetadataTable : List (String × String × ℚ) :=
  [("wildfire-risk-v3", "1.0.0", 19/20), ("fire-spread-v2", "2.1.0", 23/25)]

/-- `getModelMetadata()`.  The source body contains no `isInitialized`
guard: it resolves with the metadata list unconditionally. -/
def getModelMetadata (st : OrchState) :
    Except String (List (String × String × ℚ)) :=
  .ok modelMetadataTable

/-- `makePrediction(input)`: the not-initialized guard, then the simulated
prediction.  The `Math.random()`-based result object is abstracted as an
oracle `mp` giving the settled value of the prediction call on an input;
the method reads no other state and mutates nothing. -/
def makePrediction {α β : Type} (mp : α → β) (st : OrchState) (input : α) :
    Except String β :=
  if !st.isInitialized then .error "Model not initialized"
  else .ok (mp input)

/-- `Promise.all` over an already-dispatched batch: settles to the list of
values in dispatch order, or to the first rejection. -/
def awaitAll {β : Type} : List (Except String β) → Except String (List β)
  | [] => .ok []
  | r :: rest => do
    let y ← r
    let ys ← awaitAll rest
    pure (y :: ys)

/-- The `for (let i = 0; i < inputs.length; i += batchSize)` loop of
`batchPredict` with `batchSize = 10`: each batch is the next slice
`inputs.slice(i, i + 10)`, dispatched and awaited in full before the next
batch starts.  The remainder after a non-empty list's first slice is
`(a :: rest).drop 10 = rest.drop 9`. -/
def batchPredictLoop {α β : Type} (mp : α → β) (st : OrchState) :
    List α → Except String (List β)
  | [] => .ok []
  | a :: rest => do
    let batchResults ← awaitAll (((a :: rest).take 10).map (makePrediction mp st))
    let restResults ← batchPredictLoop mp st (rest.drop 9)
    pure (batchResults ++ restResults)
termination_by inputs => inputs.length
decreasing_by
  simp only [List.length_drop, List.length_cons]
  omega

/-- `batchPredict(inputs)`: guard, then the batch loop. -/
def batchPredict {α β : Type} (mp : α → β) (st : OrchState)
    (inputs : List α) : Except String (List β) :=
  if !st.isInitialized then .error "Model not initialized"
  else batchPredictLoop mp st inputs

/-- The successive slices `inputs.slice(i, i + 10)` taken by the
`batchPredict` loop, in dispatch order. -/
def batches {α : Type} : List α → List (List α)
  | [] => []
  | a :: rest => (a :: rest).take 10 :: batches (rest.drop 9)
termination_by inputs => inputs.length
decreasing_by
  simp only [List.length_drop, List.length_cons]
  omega

/-- `zs` is an order-preserving merge of `xs` and `ys`: exactly the
delivery orders the single-threaded event loop can realize for two
concurrently executing phases, each of whose own status updates are
separated by suspension points and internally ordered. -/
def isInterleaving : List ℚ → List ℚ → List ℚ → Bool
  | [], [], [] => true
  | _ :: _, _, [] => false
  | [], _ :: _, [] => false
  | [], [], _ :: _ => false
  | x :: xs, [], z :: zs => decide (x = z) && isInterleaving xs [] zs
  | [], y :: ys, z :: zs => decide (y = z) && isInterleaving [] ys zs
  | x :: xs, y :: ys, z :: zs =>
    (decide (x = z) && isInterleaving xs (y :: ys) zs) ||
    (decide (y = z) && isInterleaving (x :: xs) ys zs)

/-- A list of progress values is monotonically non-decreasing. -/
def nonDecreasing : List ℚ → Bool
  | [] => true
  | [_] => true
  | x :: y :: rest => decide (x ≤ y) && nonDecreasing (y :: rest)

/-- Progress values broadcast by the critical phase of the shipped run:
`loadModels(criticalModels, 0, 60)` from a fresh state with every load
succeeding. -/
def criticalPhaseTrace : List ℚ :=
  (loadModels envOk initialState criticalModels 0 60).emittedProgress

/-- Progress values broadcast by the simulated (no-worker) data-chunk
phase, which `initializeAllModels` runs concurrently with the critical
phase. -/
def dataPhaseTrace : List ℚ :=
  (loadDataInChunksSim initialState).emittedProgress

/-- The progress values `updateStatus` receives from a run of the
`loadModels` loop in which every load succeeds, starting at loop index
`k`, for `n` remaining models. -/
def phaseTrace (startProgress progressIncrement : ℚ) : Nat → Nat → List ℚ
  | _, 0 => []
  | k, n + 1 =>
    (startProgress + (k : ℚ) * progressIncrement + progressIncrement * (4/5))
      :: phaseTrace startProgress progressIncrement (k + 1) n

/-- Deterministic fault injection: loading `bad` always fails with
message `msg`, every other load succeeds; no workers. -/
def failEnv (bad msg : String) : Env :=
  { envOk with modelLoadError := fun n => if n = bad then some msg else none }

/-! ### Helper lemmas -/

lemma loadModelsStep_success (env : Env) (st : OrchState) (name : String)
    (p inc : ℚ) (h : env.modelLoadError name = none) :
    (loadModelsStep env st name p inc).emittedProgress
        = st.emittedProgress ++ [p + inc * (4/5)] ∧
    (loadModelsStep env st name p inc).errors = st.errors ∧
    name ∈ (loadModelsStep env st name p inc).loadedModels ∧
    ∀ n, n ∈ (loadModelsStep env st name p inc).loadedModels ↔
      n ∈ st.loadedModels ∨ n = name := by
  unfold loadModelsStep loadModelsTry loadModel
  by_cases hc : name ∈ st.loadedModels
  · simp [hc, updateStatus]
  · simp [hc, h, updateStatus]

lemma loadModelsStep_failure (env : Env) (st : OrchState) (name : String)
    (p inc : ℚ) (msg : String) (hmem : name ∉ st.loadedModels)
    (h : env.modelLoadError name = some msg) :
    loadModelsStep env st name p inc =
      { st with errors :=
          st.errors ++ ["Failed to load model " ++ name ++ ": " ++ msg] } := by
  unfold loadModelsStep loadModelsTry loadModel
  simp [hmem, h]

lemma loadModelsStep_loadedModels (env : Env) (st : OrchState)
    (name : String) (p inc : ℚ) :
    (loadModelsStep env st name p inc).loadedModels = st.loadedModels ∨
    (loadModelsStep env st name p inc).loadedModels
      = st.loadedModels ++ [name] := by
  unfold loadModelsStep loadModelsTry loadModel
  by_cases hc : name ∈ st.loadedModels
  · simp [hc, updateStatus]
  · cases hm : env.modelLoadError name
    · simp [hc, hm, updateStatus]
    · simp [hc, hm]

lemma loadModelsLoop_loadedModels_superset (env : Env) (sP inc : ℚ) :
    ∀ (names : List String) (k : Nat) (st : OrchState) (n : String),
    n ∈ st.loadedModels →
    n ∈ (loadModelsLoop env sP inc names k st).loadedModels := by
  intro names
  induction names with
  | nil => intro k st n hn; simpa [loadModelsLoop] using hn
  | cons name rest ih =>
    intro k st n hn
    simp only [loadModelsLoop]
    apply ih
    rcases loadModelsStep_loadedModels env st name
        (sP + (k : ℚ) * inc) inc with h | h
    · rw [h]; exact hn
    · rw [h]; exact List.mem_append_left _ hn

lemma loadModelsLoop_emittedProgress (env : Env) (sP inc : ℚ) :
    ∀ (names : List String) (k : Nat) (st : OrchState),
    (∀ n ∈ names, env.modelLoadError n = none) →
    (loadModelsLoop env sP inc names k st).emittedProgress
      = st.emittedProgress ++ phaseTrace sP inc k names.length := by
  intro names
  induction names with
  | nil => intro k st _; simp [loadModelsLoop, phaseTrace]
  | cons name rest ih =>
    intro k st h
    have hname : env.modelLoadError name = none := h name (by simp)
    have hrest : ∀ n ∈ rest, env.modelLoadError n = none :=
      fun n hn => h n (by simp [hn])
    simp only [loadModelsLoop]
    rw [ih (k + 1) _ hrest,
      (loadModelsStep_success env st name (sP + (k : ℚ) * inc) inc hname).1]
    simp [phaseTrace]

lemma phaseTrace_getElem (sP inc : ℚ) :
    ∀ (n k i : Nat), i < n →
    (phaseTrace sP inc k n)[i]?
      = some (sP + ((k : ℚ) + (i : ℚ)) * inc + inc * (4/5)) := by
  intro n
  induction n with
  | zero => intro k i hi; omega
  | succ m ih =>
    intro k i hi
    cases i with
    | zero => simp [phaseTrace]
    | succ j =>
      simp only [phaseTrace, List.getElem?_cons_succ]
      rw [ih (k + 1) j (by omega)]
      congr 1
      push_cast
      ring

lemma runInitialization_snd (env : Env) (st0 : OrchState) (now : ℚ) :
    (runInitialization env st0 now).2
      = getStatus (runInitialization env st0 now).1 now := by
  simp only [runInitialization]
  split <;> rfl

lemma initializeAllModels_snd (env : Env) (p : List String) (st : OrchState)
    (now : ℚ) :
    (initializeAllModels env p st now).2
      = getStatus (initializeAllModels env p st now).1 now := by
  unfold initializeAllModels
  by_cases h : st.isInitialized
  · simp [h]
  · simp only [h, if_false, Bool.false_eq_true]
    exact runInitialization_snd env (resetRunState env st) now

lemma criticalPhaseTrace_eq : criticalPhaseTrace = [24, 54] := by
  unfold criticalPhaseTrace loadModels
  rw [if_neg (by simp [criticalModels])]
  rw [loadModelsLoop_emittedProgress envOk _ _ _ 0 initialState (fun n _ => rfl)]
  norm_num [phaseTrace, initialState, criticalModels]

lemma dataPhaseTrace_eq :
    dataPhaseTrace = [20, 23, 26, 29, 32, 35, 38, 41, 44, 47] := by
  unfold dataPhaseTrace loadDataInChunksSim
  rw [(by decide : List.range 10 = [0, 1, 2, 3, 4, 5, 6, 7, 8, 9])]
  norm_num [updateStatus, initialState, round_eq]

lemma notifySubscribers_append (pre post : List Subscriber) (cb : Subscriber)
    (snap : ModelInitializationStatus) (e : String)
    (hpre : ∀ c ∈ pre, c snap = .ok ())
    (hcb : cb snap = .error e) :
    notifySubscribers (pre ++ cb :: post) snap = (pre.length + 1, some e) := by
  induction pre with
  | nil => simp [notifySubscribers, hcb]
  | cons c rest ih =>
    have hc : c snap = .ok () := hpre c (by simp)
    have hrest : ∀ d ∈ rest, d snap = .ok () :=
      fun d hd => hpre d (by simp [hd])
    simp [notifySubscribers, hc, ih hrest]

/-- A subscriber callback that returns normally. -/
def okSubscriber : Subscriber := fun _ => .ok ()

/-- A subscriber callback that throws. -/
def throwingSubscriber : Subscriber := fun _ => .error "subscriber exploded"

/-- A constructed mid-run state: a previous `initializeAllModels` run is
still executing (errors logged, progress advanced, one model loaded, not
yet initialized). -/
def midRunState : OrchState :=
  { isInitialized := false
    initializationStartTime := 5
    errors := ["earlier failure"]
    currentStep := "Loading data: Chunk 4 of 10"
    progress := 29
    loadedModels := ["wildfire-risk-v3"]
    emittedProgress := [20, 23, 26, 29] }

/-- A state reached after a completed run. -/
def finishedState : OrchState :=
  { isInitialized := true
    initializationStartTime := 1000
    errors := []
    currentStep := "Initialization complete"
    progress := 100
    loadedModels := ["wildfire-risk-v3", "fire-spread-v2"]
    emittedProgress := [] }

/-- `envOk` with the run starting at wall-clock time 1000. -/
def envAt1000 : Env := { envOk with startNow := 1000 }

lemma loadModelsLoop_isolation (env : Env) (bad msg : String) (sP inc : ℚ)
    (hfail : env.modelLoadError bad = some msg) :
    ∀ (names : List String) (k : Nat) (st : OrchState),
    (∀ n ∈ names, n ≠ bad → env.modelLoadError n = none) →
    bad ∉ st.loadedModels →
    (loadModelsLoop env sP inc names k st).errors
      = st.errors ++ List.replicate (names.count bad)
          ("Failed to load model " ++ bad ++ ": " ++ msg) ∧
    bad ∉ (loadModelsLoop env sP inc names k st).loadedModels ∧
    ∀ n ∈ names, n ≠ bad →
      n ∈ (loadModelsLoop env sP inc names k st).loadedModels := by
  intro names
  induction names with
  | nil =>
    intro k st _ hb
    exact ⟨by simp [loadModelsLoop], by simpa [loadModelsLoop] using hb,
      by simp⟩
  | cons name rest ih =>
    intro k st h hb
    by_cases hname : name = bad
    · subst hname
      simp only [loadModelsLoop]
      rw [loadModelsStep_failure env st name (sP + (k : ℚ) * inc) inc msg hb
        hfail]
      obtain ⟨e1, e2, e3⟩ :=
        ih (k + 1)
          { st with errors :=
              st.errors ++ ["Failed to load model " ++ name ++ ": " ++ msg] }
          (fun n hn hnb => h n (by simp [hn]) hnb) hb
      refine ⟨?_, e2, ?_⟩
      · rw [e1]
        simp [List.count_cons_self, List.replicate_succ]
      · intro n hn hnb
        have hn2 : n ∈ rest := by
          rcases List.mem_cons.mp hn with rfl | h2
          · exact absurd rfl hnb
          · exact h2
        exact e3 n hn2 hnb
    · have hnone : env.modelLoadError name = none := h name (by simp) hname
      have hsucc :=
        loadModelsStep_success env st name (sP + (k : ℚ) * inc) inc hnone
      have hb1 : bad ∉
          (loadModelsStep env st name (sP + (k : ℚ) * inc) inc).loadedModels := by
        intro hmem
        rcases (hsucc.2.2.2 bad).mp hmem with h2 | h2
        · exact hb h2
        · exact hname h2.symm
      simp only [loadModelsLoop]
      obtain ⟨e1, e2, e3⟩ :=
        ih (k + 1) _ (fun n hn hnb => h n (by simp [hn]) hnb) hb1
      refine ⟨?_, e2, ?_⟩
      · rw [e1, hsucc.2.1]
        have hcnt : (name :: rest).count bad = rest.count bad :=
          List.count_cons_of_ne (fun hh => hname hh.symm) rest
        rw [hcnt]
      · intro n hn hnb
        rcases List.mem_cons.mp hn with rfl | h2
        · exact loadModelsLoop_loadedModels_superset env sP inc rest (k + 1)
            _ n hsucc.2.2.1
        · exact e3 n h2 hnb

lemma awaitAll_map_ok {α β : Type} (f : α → β) (l : List α) :
    awaitAll (l.map (fun x => (Except.ok (f x) : Except String β)))
      = .ok (l.map f) := by
  induction l with
  | nil => rfl
  | cons a rest ih =>
    simp only [awaitAll, List.map_cons, ih]
    rfl

lemma batchPredictLoop_ok {α β : Type} (mp : α → β) (st : OrchState)
    (h : st.isInitialized = true) :
    ∀ inputs : List α, batchPredictLoop mp st inputs = .ok (inputs.map mp) := by
  have key : ∀ (n : Nat) (inputs : List α), inputs.length ≤ n →
      batchPredictLoop mp st inputs = .ok (inputs.map mp) := by
    intro n
    induction n with
    | zero =>
      intro inputs h0
      have : inputs = [] := List.length_eq_zero.mp (by omega)
      subst this
      simp [batchPredictLoop]
    | succ m ih =>
      intro inputs hlen
      cases inputs with
      | nil => simp [batchPredictLoop]
      | cons a rest =>
        simp only [batchPredictLoop]
        have hmap : ((a :: rest).take 10).map (makePrediction mp st)
            = ((a :: rest).take 10).map (fun x => (Except.ok (mp x) : Except String β)) :=
          List.map_congr_left (fun x _ => by simp [makePrediction, h])
        rw [hmap, awaitAll_map_ok,
          ih (rest.drop 9) (by simp [List.length_drop] at hlen ⊢; omega)]
        have hsplit : ((a :: rest).take 10).map mp ++ ((rest.drop 9)).map mp
            = (a :: rest).map mp := by
          rw [← List.map_append]
          congr 1
          exact List.take_append_drop 10 (a :: rest)
        exact congrArg Except.ok hsplit
  exact fun inputs => key inputs.length inputs le_rfl

lemma batches_flatten {α : Type} :
    ∀ inputs : List α, (batches inputs).flatten = inputs := by
  have key : ∀ (n : Nat) (inputs : List α), inputs.length ≤ n →
      (batches inputs).flatten = inputs := by
    intro n
    induction n with
    | zero =>
      intro inputs h0
      have : inputs = [] := List.length_eq_zero.mp (by omega)
      subst this
      simp [batches]
    | succ m ih =>
      intro inputs hlen
      cases inputs with
      | nil => simp [batches]
      | cons a rest =>
        simp only [batches, List.flatten_cons]
        rw [ih (rest.drop 9) (by simp [List.length_drop] at hlen ⊢; omega)]
        exact List.take_append_drop 10 (a :: rest)
  exact fun inputs => key inputs.length inputs le_rfl

lemma batches_length_le {α : Type} :
    ∀ inputs : List α, ∀ b ∈ batches inputs, b.length ≤ 10 := by
  have key : ∀ (n : Nat) (inputs : List α), inputs.length ≤ n →
      ∀ b ∈ batches inputs, b.length ≤ 10 := by
    intro n
    induction n with
    | zero =>
      intro inputs h0
      have : inputs = [] := List.length_eq_zero.mp (by omega)
      subst this
      simp [batches]
    | succ m ih =>
      intro inputs hlen
      cases inputs with
      | nil => simp [batches]
      | cons a rest =>
        simp only [batches]
        intro b hb
        rcases List.mem_cons.mp hb with rfl | h2
        · simpa using List.length_take_le 10 (a :: rest)
        · exact ih (rest.drop 9)
            (by simp [List.length_drop] at hlen ⊢; omega) b h2
  exact fun inputs => key inputs.length inputs le_rfl

lemma batches_eleven {α : Type} (inputs : List α) (h11 : inputs.length = 11) :
    batches inputs = [inputs.take 10, inputs.drop 10] := by
  cases inputs with
  | nil => simp at h11
  | cons a rest =>
    have hlr : rest.length = 10 := by simpa using h11
    simp only [batches]
    have hlen : (rest.drop 9).length = 1 := by simp [List.length_drop, hlr]
    obtain ⟨x, hx⟩ := List.length_eq_one.mp hlen
    rw [hx]
    simp only [batches]
    have hd : (a :: rest).drop 10 = [x] := hx
    rw [hd]
    simp [batches]

/-! ### Claims -/

/-- C1 counterexample: calling `initializeAllModels` with the non-empty
`priorityModels` list `["foo"]` does not make the critical phase load
`"foo"`; the phase loads the hard-coded critical defaults instead, so the
claim that a non-empty `priorityModels` determines the critical phase's
model list is false. -/
theorem c1_counterexample :
    (initializeAllModels envOk ["foo"] initialState 0).1.loadedModels
      = ["wildfire-risk-v3", "fire-spread-v2"] ∧
    "foo" ∉ (initializeAllModels envOk ["foo"] initialState 0).1.loadedModels := by
  decide

/-- C1 (amended): the `priorityModels` argument is ignored entirely — the
run is the same function of the environment and state for every argument
value — and the critical phase always loads the hard-coded
`criticalModels` defaults over the progress range 0 to 60. -/
theorem c1_priorityModels_ignored :
    (∀ (env : Env) (p : List String) (st : OrchState) (now : ℚ),
      initializeAllModels env p st now = initializeAllModels env [] st now) ∧
    (initializeAllModels envOk [] initialState 0).1.loadedModels
      = criticalModels :=
  ⟨fun _ _ _ _ => rfl, by decide⟩

/-- C2: the event loop can interleave the critical phase (progress values
24, 54 over range 0-60) with the concurrently running simulated data-chunk
phase (progress values 20..47 over range 20-50) so that one subscriber
observes the delivery order 20, 23, 26, 29, 32, 35, 24, ... — which is not
monotonically non-decreasing.  (With the source's 500-1500 ms per-model
load delay and 100 ms per-chunk delay, every actual schedule delivers at
least the decrease 35 → 24.) -/
theorem c2_progress_not_monotone :
    isInterleaving criticalPhaseTrace dataPhaseTrace
      [20, 23, 26, 29, 32, 35, 24, 38, 41, 44, 47, 54] = true ∧
    nonDecreasing [20, 23, 26, 29, 32, 35, 24, 38, 41, 44, 47, 54] = false := by
  rw [criticalPhaseTrace_eq, dataPhaseTrace_eq]
  decide

/-- C3 counterexample: with a throwing subscriber registered first and a
second subscriber after it, the update invokes only one callback (not both)
and the exception propagates to `updateStatus`'s caller. -/
theorem c3_counterexample :
    (updateStatusNotify [throwingSubscriber, okSubscriber] initialState 0
        { progress := some 5 }).2 = (1, some "subscriber exploded") ∧
    (updateStatusNotify [throwingSubscriber, okSubscriber] initialState 0
        { progress := some 5 }).2 ≠ (2, none) := by
  exact ⟨rfl, by decide⟩

/-- C3 (amended): when the subscribers before `cb` all return normally and
`cb` throws, the internal state update still happens, exactly the
subscribers up to and including `cb` are invoked (none registered after
it), and `cb`'s exception propagates to `updateStatus`'s caller. -/
theorem c3_subscriber_throw (pre post : List Subscriber) (cb : Subscriber)
    (e : String) (st : OrchState) (now : ℚ) (u : StatusUpdates)
    (hpre : ∀ c ∈ pre, c (mergedSnapshot st now u) = .ok ())
    (hcb : cb (mergedSnapshot st now u) = .error e) :
    updateStatusNotify (pre ++ cb :: post) st now u
      = (updateStatus st u, pre.length + 1, some e) := by
  simp only [updateStatusNotify]
  rw [notifySubscribers_append pre post cb _ e hpre hcb]

/-- Witness for `c3_subscriber_throw` at a concrete input. -/
theorem c3_subscriber_throw_witness :
    (∀ c ∈ [okSubscriber],
      c (mergedSnapshot initialState 0 { progress := some 5 }) = .ok ()) ∧
    throwingSubscriber (mergedSnapshot initialState 0 { progress := some 5 })
      = .error "subscriber exploded" ∧
    updateStatusNotify ([okSubscriber] ++ throwingSubscriber :: [okSubscriber])
        initialState 0 { progress := some 5 }
      = (updateStatus initialState { progress := some 5 }, 2,
          some "subscriber exploded") :=
  ⟨fun c hc => by rw [List.mem_singleton] at hc; subst hc; rfl,
   rfl,
   c3_subscriber_throw [okSubscriber] [okSubscriber] throwingSubscriber
     "subscriber exploded" initialState 0 { progress := some 5 }
     (fun c hc => by rw [List.mem_singleton] at hc; subst hc; rfl) rfl⟩

/-- C4 counterexample: `getModelMetadata` contains no initialization
guard — called on an uninitialized orchestrator it succeeds with the
metadata list instead of failing with a "not initialized" error. -/
theorem c4_counterexample :
    initialState.isInitialized = false ∧
    getModelMetadata initialState = .ok modelMetadataTable :=
  ⟨rfl, rfl⟩

/-- C4 (amended): `makePrediction` and `batchPredict` do fail with the
"not initialized" error when `isInitialized` is false (and, reading no
state besides the flag and mutating nothing, leave the error log
untouched), but `getModelMetadata` performs no such check and resolves
regardless. -/
theorem c4_not_initialized_guard (st : OrchState) (mp : Nat → Nat) (x : Nat)
    (inputs : List Nat) (h : st.isInitialized = false) :
    makePrediction mp st x = .error "Model not initialized" ∧
    batchPredict mp st inputs = .error "Model not initialized" ∧
    getModelMetadata st = .ok modelMetadataTable := by
  refine ⟨?_, ?_, rfl⟩ <;> simp [makePrediction, batchPredict, h]

/-- Witness for `c4_not_initialized_guard` at a concrete input. -/
theorem c4_not_initialized_guard_witness :
    initialState.isInitialized = false ∧
    (makePrediction (fun n => n) initialState 0
        = .error "Model not initialized" ∧
      batchPredict (fun n => n) initialState [1, 2]
        = .error "Model not initialized" ∧
      getModelMetadata initialState = .ok modelMetadataTable) :=
  ⟨rfl, c4_not_initialized_guard initialState (fun n => n) 0 [1, 2] rfl⟩

/-- C5 counterexample: for `loadModels(['a','b'], 0, 60)` the claim
predicts the progress reports 30 and 60 (and in particular endProgress 60
after the last element); the code reports 24 and 54. -/
theorem c5_counterexample :
    (loadModels envOk initialState ["a", "b"] 0 60).emittedProgress
      = [24, 54] ∧
    (loadModels envOk initialState ["a", "b"] 0 60).emittedProgress
      ≠ [30, 60] := by
  have h : (loadModels envOk initialState ["a", "b"] 0 60).emittedProgress
      = [24, 54] := by
    unfold loadModels
    rw [if_neg (by simp)]
    rw [loadModelsLoop_emittedProgress envOk _ _ _ 0 initialState
      (fun n _ => rfl)]
    norm_num [phaseTrace, initialState]
  exact ⟨h, by rw [h]; decide⟩

/-- C5 (amended): with every load succeeding, completing the `i`-th
element (0-indexed) reports progress
`startProgress + (i + 0.8) * (endProgress - startProgress) / n` — i.e.
`startProgress + (i - 0.2) * increment` 1-indexed — so the last element
leaves progress `0.2 * increment` short of `endProgress`, and no clamping
occurs. -/
theorem c5_loadModels_progress_formula (env : Env) (names : List String)
    (sP eP : ℚ) (st : OrchState) (i : Nat)
    (hsucc : ∀ n ∈ names, env.modelLoadError n = none)
    (hi : i < names.length) :
    ((loadModels env st names sP eP).emittedProgress)[st.emittedProgress.length + i]?
      = some (sP + ((i : ℚ) + 4/5) * ((eP - sP) / (names.length : ℚ))) := by
  have hne : ¬ names.length = 0 := by omega
  unfold loadModels
  rw [if_neg hne]
  rw [loadModelsLoop_emittedProgress env _ _ names 0 st hsucc]
  rw [List.getElem?_append_right (by omega)]
  simp only [Nat.add_sub_cancel_left]
  rw [phaseTrace_getElem _ _ names.length 0 i hi]
  congr 1
  push_cast
  ring

/-- Witness for `c5_loadModels_progress_formula` at a concrete input:
three models over 0-60, second element reports 36. -/
theorem c5_loadModels_progress_formula_witness :
    (∀ n ∈ ["a", "b", "c"], envOk.modelLoadError n = none) ∧
    1 < (["a", "b", "c"] : List String).length ∧
    ((loadModels envOk initialState ["a", "b", "c"] 0 60).emittedProgress)[initialState.emittedProgress.length + 1]?
      = some (0 + ((1 : ℚ) + 4/5)
          * ((60 - 0) / ((["a", "b", "c"] : List String).length : ℚ))) :=
  ⟨by decide, by decide,
   c5_loadModels_progress_formula envOk ["a", "b", "c"] 0 60 initialState 1
     (by decide) (by decide)⟩

/-- C8 counterexample: a second `initializeAllModels` call on the
already-initialized singleton returns a snapshot that differs from the
first call's snapshot — `initializationTime` is recomputed from the
current wall clock (2 seconds later here). -/
theorem c8_counterexample :
    (initializeAllModels envAt1000 [] initialState 1000).2.initializationTime
      = 0 ∧
    (initializeAllModels envAt1000 []
        (initializeAllModels envAt1000 [] initialState 1000).1
        3000).2.initializationTime = 2 ∧
    (initializeAllModels envAt1000 []
        (initializeAllModels envAt1000 [] initialState 1000).1 3000).2
      ≠ (initializeAllModels envAt1000 [] initialState 1000).2 := by
  have h1 : (initializeAllModels envAt1000 [] initialState 1000).1.isInitialized
      = true := by decide
  have h2 : (initializeAllModels envAt1000 []
      initialState 1000).1.initializationStartTime = 1000 := by decide
  have hsecond : initializeAllModels envAt1000 []
      (initializeAllModels envAt1000 [] initialState 1000).1 3000
      = ((initializeAllModels envAt1000 [] initialState 1000).1,
         getStatus (initializeAllModels envAt1000 [] initialState 1000).1
           3000) := by
    generalize hg : (initializeAllModels envAt1000 [] initialState 1000).1 = s at h1 ⊢
    simp [initializeAllModels, h1]
  have t1 : (initializeAllModels envAt1000 []
      initialState 1000).2.initializationTime = 0 := by
    rw [initializeAllModels_snd]
    simp only [getStatus]
    rw [h2]
    norm_num
  have t2 : (initializeAllModels envAt1000 []
      (initializeAllModels envAt1000 [] initialState 1000).1
      3000).2.initializationTime = 2 := by
    rw [hsecond]
    simp only [getStatus]
    rw [h2]
    norm_num
  refine ⟨t1, t2, fun heq => ?_⟩
  rw [heq, t1] at t2
  norm_num at t2

/-- C8 (amended): a call on an already-initialized orchestrator performs
no work — the state (errors, loaded models, everything) is returned
unchanged and no phase runs — and the returned snapshot equals the
current snapshot, which agrees with any earlier snapshot of the same
state on every field except the wall-clock-derived `initializationTime`. -/
theorem c8_reinit_noop_except_time (env : Env) (p : List String)
    (st : OrchState) (now now2 : ℚ) (h : st.isInitialized = true) :
    initializeAllModels env p st now = (st, getStatus st now) ∧
    getStatus st now2
      = { getStatus st now with
          initializationTime := (getStatus st now2).initializationTime } := by
  constructor
  · simp [initializeAllModels, h]
  · rfl

/-- Witness for `c8_reinit_noop_except_time` at a concrete input. -/
theorem c8_reinit_noop_except_time_witness :
    finishedState.isInitialized = true ∧
    (initializeAllModels envOk [] finishedState 2000
        = (finishedState, getStatus finishedState 2000) ∧
      getStatus finishedState 3000
        = { getStatus finishedState 2000 with
            initializationTime := (getStatus finishedState 3000).initializationTime }) :=
  ⟨rfl, c8_reinit_noop_except_time envOk [] finishedState 2000 3000 rfl⟩

/-- C6: on an uninitialized orchestrator, `initializeAllModels` always
resolves with the current snapshot (its translation is total and the
result is `getStatus` of the final state); any rejection of the background
phase is absorbed by the top-level catch, which appends the explanatory
`Initialization failed: ...` entry, and `isInitialized` ends up true on
both the success and the failure path, with `progress = 100` on success. -/
theorem c6_run_always_resolves (env : Env) (p : List String) (st : OrchState)
    (now : ℚ) (h : st.isInitialized = false) :
    (initializeAllModels env p st now).1.isInitialized = true ∧
    (initializeAllModels env p st now).2
      = getStatus (initializeAllModels env p st now).1 now ∧
    ((continueBackgroundInitialization env (initializeWorkers env).1
        (initializeWorkers env).2
        (loadModels env (resetRunState env st) criticalModels 0 60)).2 = none →
      (initializeAllModels env p st now).1.progress = 100) ∧
    ∀ e, (continueBackgroundInitialization env (initializeWorkers env).1
        (initializeWorkers env).2
        (loadModels env (resetRunState env st) criticalModels 0 60)).2
          = some e →
      ("Initialization failed: Error: " ++ e)
        ∈ (initializeAllModels env p st now).1.errors := by
  have hg : initializeAllModels env p st now
      = runInitialization env (resetRunState env st) now := by
    simp [initializeAllModels, h]
  refine ⟨?_, initializeAllModels_snd env p st now, ?_, ?_⟩
  · rw [hg]
    simp only [runInitialization]
    split
    · simp [finalizeInitialization, updateStatus]
    · simp
  · intro hbg
    rw [hg]
    simp only [runInitialization]
    rw [hbg]
    simp [finalizeInitialization, updateStatus]
  · intro e hbg
    rw [hg]
    simp only [runInitialization]
    rw [hbg]
    simp

/-- Witness for `c6_run_always_resolves` at a concrete input. -/
theorem c6_run_always_resolves_witness :
    initialState.isInitialized = false ∧
    ((initializeAllModels envOk [] initialState 0).1.isInitialized = true ∧
      (initializeAllModels envOk [] initialState 0).2
        = getStatus (initializeAllModels envOk [] initialState 0).1 0 ∧
      ((continueBackgroundInitialization envOk (initializeWorkers envOk).1
          (initializeWorkers envOk).2
          (loadModels envOk (resetRunState envOk initialState)
            criticalModels 0 60)).2 = none →
        (initializeAllModels envOk [] initialState 0).1.progress = 100) ∧
      ∀ e, (continueBackgroundInitialization envOk (initializeWorkers envOk).1
          (initializeWorkers envOk).2
          (loadModels envOk (resetRunState envOk initialState)
            criticalModels 0 60)).2 = some e →
        ("Initialization failed: Error: " ++ e)
          ∈ (initializeAllModels envOk [] initialState 0).1.errors) :=
  ⟨rfl, c6_run_always_resolves envOk [] initialState 0 rfl⟩

/-- C7: a deterministic failure of exactly one named model is isolated:
the error log gains exactly one entry referencing that model, the failed
model is not inserted into the loaded set, and every other name in the
sequence is still attempted and loaded.  (`loadModels` itself never
throws: every per-model failure is caught inside the loop, which is why
its translation is a total function.) -/
theorem c7_loadModels_failure_isolation (env : Env) (names : List String)
    (bad msg : String) (st : OrchState) (sP eP : ℚ)
    (hfail : env.modelLoadError bad = some msg)
    (hothers : ∀ n ∈ names, n ≠ bad → env.modelLoadError n = none)
    (hmem : bad ∈ names) (hcount : names.count bad = 1)
    (hnotloaded : bad ∉ st.loadedModels) :
    (loadModels env st names sP eP).errors
      = st.errors ++ ["Failed to load model " ++ bad ++ ": " ++ msg] ∧
    bad ∉ (loadModels env st names sP eP).loadedModels ∧
    ∀ n ∈ names, n ≠ bad → n ∈ (loadModels env st names sP eP).loadedModels := by
  have hne : ¬ names.length = 0 := by
    cases names
    · simp at hmem
    · simp
  unfold loadModels
  rw [if_neg hne]
  obtain ⟨e1, e2, e3⟩ := loadModelsLoop_isolation env bad msg sP
    ((eP - sP) / (names.length : ℚ)) hfail names 0 st hothers hnotloaded
  refine ⟨?_, e2, e3⟩
  rw [e1, hcount]
  simp

/-- Witness for `c7_loadModels_failure_isolation`: `"fire-spread-v2"` made
to fail deterministically among three requested models. -/
theorem c7_loadModels_failure_isolation_witness :
    (failEnv "fire-spread-v2" "boom").modelLoadError "fire-spread-v2"
      = some "boom" ∧
    (∀ n ∈ ["wildfire-risk-v3", "fire-spread-v2", "fuel-moisture-v1"],
      n ≠ "fire-spread-v2" →
      (failEnv "fire-spread-v2" "boom").modelLoadError n = none) ∧
    "fire-spread-v2" ∈ ["wildfire-risk-v3", "fire-spread-v2", "fuel-moisture-v1"] ∧
    (["wildfire-risk-v3", "fire-spread-v2", "fuel-moisture-v1"].count
      "fire-spread-v2" = 1) ∧
    "fire-spread-v2" ∉ initialState.loadedModels ∧
    ((loadModels (failEnv "fire-spread-v2" "boom") initialState
        ["wildfire-risk-v3", "fire-spread-v2", "fuel-moisture-v1"] 0 60).errors
      = initialState.errors
        ++ ["Failed to load model " ++ "fire-spread-v2" ++ ": " ++ "boom"] ∧
    "fire-spread-v2" ∉ (loadModels (failEnv "fire-spread-v2" "boom")
        initialState
        ["wildfire-risk-v3", "fire-spread-v2", "fuel-moisture-v1"] 0 60).loadedModels ∧
    ∀ n ∈ ["wildfire-risk-v3", "fire-spread-v2", "fuel-moisture-v1"],
      n ≠ "fire-spread-v2" →
      n ∈ (loadModels (failEnv "fire-spread-v2" "boom") initialState
        ["wildfire-risk-v3", "fire-spread-v2", "fuel-moisture-v1"] 0 60).loadedModels) :=
  ⟨by decide, by decide, by decide, by decide, by decide,
   c7_loadModels_failure_isolation (failEnv "fire-spread-v2" "boom")
     ["wildfire-risk-v3", "fire-spread-v2", "fuel-moisture-v1"]
     "fire-spread-v2" "boom" initialState 0 60
     (by decide) (by decide) (by decide) (by decide) (by decide)⟩

/-- C9: on an initialized orchestrator, `batchPredict` returns one result
per input, in input order, each being the delegated prediction for the
corresponding input; inputs are consumed in successive slices of 10
dispatched in sequence (so for 11 inputs the first ten predictions are
all requested in the first batch, before the batch holding the 11th). -/
theorem c9_batchPredict_order {α β : Type} (mp : α → β) (st : OrchState)
    (inputs : List α) (h : st.isInitialized = true) :
    batchPredict mp st inputs = .ok (inputs.map mp) ∧
    (batches inputs).flatten = inputs ∧
    (∀ b ∈ batches inputs, b.length ≤ 10) ∧
    (inputs.length = 11 →
      batches inputs = [inputs.take 10, inputs.drop 10]) := by
  refine ⟨?_, batches_flatten inputs, batches_length_le inputs,
    fun h11 => batches_eleven inputs h11⟩
  simp only [batchPredict, h, Bool.not_true, Bool.false_eq_true, if_false]
  exact batchPredictLoop_ok mp st h inputs

/-- Witness for `c9_batchPredict_order` on an 11-element input list. -/
theorem c9_batchPredict_order_witness :
    finishedState.isInitialized = true ∧
    (batchPredict (fun n => n + 100) finishedState (List.range 11)
        = .ok ((List.range 11).map (fun n => n + 100)) ∧
      (batches (List.range 11)).flatten = List.range 11 ∧
      (∀ b ∈ batches (List.range 11), b.length ≤ 10) ∧
      ((List.range 11).length = 11 →
        batches (List.range 11)
          = [(List.range 11).take 10, (List.range 11).drop 10])) :=
  ⟨rfl, c9_batchPredict_order (fun n => n + 100) finishedState
    (List.range 11) rfl⟩

/-- C10: the re-initialization guard tests only `isInitialized`: a call
made while a previous run is still in progress is neither deduplicated nor
rejected — it runs the full pipeline on a state whose run-scoped fields
have been unconditionally reset (timer restarted, errors cleared, progress
zeroed, loaded-model set cleared). -/
theorem c10_guard_tests_only_isInitialized (env : Env) (p : List String)
    (st : OrchState) (now : ℚ) (h : st.isInitialized = false) :
    initializeAllModels env p st now
      = runInitialization env (resetRunState env st) now ∧
    (resetRunState env st).errors = [] ∧
    (resetRunState env st).progress = 0 ∧
    (resetRunState env st).loadedModels = [] ∧
    (resetRunState env st).initializationStartTime = env.startNow := by
  refine ⟨?_, rfl, rfl, rfl, rfl⟩
  simp [initializeAllModels, h]

/-- Witness for `c10_guard_tests_only_isInitialized` on a concrete
mid-run state. -/
theorem c10_guard_tests_only_isInitialized_witness :
    midRunState.isInitialized = false ∧
    (initializeAllModels envOk [] midRunState 6
        = runInitialization envOk (resetRunState envOk midRunState) 6 ∧
      (resetRunState envOk midRunState).errors = [] ∧
      (resetRunState envOk midRunState).progress = 0 ∧
      (resetRunState envOk midRunState).loadedModels = [] ∧
      (resetRunState envOk midRunState).initializationStartTime
        = envOk.startNow) :=
  ⟨rfl, c10_guard_tests_only_isInitialized envOk [] midRunState 6 rfl⟩

end WildfireAI
